import Mathlib

/-!
Verification of the `employee_timelog_list` Cloud Function
(src/main.py of employees-timesheet-list).

The handler decodes a base64 Pub/Sub payload, JSON-parses it (tolerating a
double-encoded payload), fetches and serializes all TimeLog records through
external collaborators, groups the serialized records by employee identifier,
and forwards the grouped result to a dashboard notification channel.

Shallow embedding conventions:
* JSON values are `JValue`; numbers are modelled as integers (the identifiers
  the code manipulates are ints or strings).
* A serialized record (a Python dict produced by `TimeLogSerializer`) is an
  association list `Timesheet` with string keys; `dict.get(k)` returning
  Python `None` for an absent key is `dict_get`, which yields `JValue.null`.
* Python truthiness (`a or b`) is `truthy` / `py_or`; Python `str()` is
  `py_str` (with `py_repr` for the container cases, including Python's
  quote-choice rule for string repr; exotic control-character escapes beyond
  backslash, quotes, newline, carriage return and tab are not modelled).
* The external collaborators (base64+utf-8 decoding, `json.loads`,
  `TimeLog.objects.all()` + `TimeLogSerializer(...).data`, and
  `send_dashboard_update`) are fields of an `Env`; each may fail, modelled
  with `Except PyError`.
* The handler returns its outcome together with the list of
  `send_dashboard_update` calls it performed, so that forwarding behaviour
  is observable.  The `try/except` in the source logs and re-raises the
  exception unchanged, which the `Except` propagation captures.
-/

/-- A JSON value as produced by `json.loads` (numbers modelled as `Int`). -/
inductive JValue where
  | null : JValue
  | bool : Bool → JValue
  | int : Int → JValue
  | str : String → JValue
  | arr : List JValue → JValue
  | obj : List (String × JValue) → JValue

/-- A serialized timelog record: a flat string-keyed mapping
(one element of `serializer.data` in src/main.py). -/
abbrev Timesheet := List (String × JValue)

/-- Python truthiness of a JSON value (`bool(v)`). -/
def truthy : JValue → Bool
  | JValue.null => false
  | JValue.bool b => b
  | JValue.int n => n != 0
  | JValue.str s => s != ""
  | JValue.arr xs => !xs.isEmpty
  | JValue.obj fs => !fs.isEmpty

/-- Python `a or b`: `a` if truthy, else `b`. -/
def py_or (a b : JValue) : JValue := if truthy a then a else b

/-- Python `v is None`. -/
def is_none : JValue → Bool
  | JValue.null => true
  | _ => false

/-- Escape one character for Python string repr under the chosen quote. -/
def py_char_escape (quote : Char) (c : Char) : String :=
  if c = Char.ofNat 92 then "\\\\"
  else if c = quote then "\\" ++ quote.toString
  else if c = Char.ofNat 10 then "\\n"
  else if c = Char.ofNat 13 then "\\r"
  else if c = Char.ofNat 9 then "\\t"
  else c.toString

/-- Python `repr` of a string: single-quoted unless the string contains a
single quote and no double quote. -/
def py_str_repr (s : String) : String :=
  let quote : Char :=
    if s.contains (Char.ofNat 39) && !(s.contains (Char.ofNat 34)) then Char.ofNat 34
    else Char.ofNat 39
  quote.toString ++ String.join (s.toList.map (py_char_escape quote)) ++ quote.toString

mutual

/-- Python `repr` of a JSON value. -/
def py_repr : JValue → String
  | JValue.null => "None"
  | JValue.bool true => "True"
  | JValue.bool false => "False"
  | JValue.int n => toString n
  | JValue.str s => py_str_repr s
  | JValue.arr xs => "[" ++ String.intercalate ", " (py_repr_list xs) ++ "]"
  | JValue.obj fs => "\x7b" ++ String.intercalate ", " (py_repr_fields fs) ++ "\x7d"

/-- `repr` of the elements of a JSON array. -/
def py_repr_list : List JValue → List String
  | [] => []
  | v :: vs => py_repr v :: py_repr_list vs

/-- `repr` of the fields of a JSON object. -/
def py_repr_fields : List (String × JValue) → List String
  | [] => []
  | (k, v) :: fs => (py_str_repr k ++ ": " ++ py_repr v) :: py_repr_fields fs

end

/-- Python `str(v)`: the string itself for strings, `repr` otherwise. -/
def py_str (v : JValue) : String :=
  match v with
  | JValue.str s => s
  | v => py_repr v

/-- Python `d.get(k)`: the value stored under `k`, or `None` if absent
(src/main.py line 63, `timesheet.get(...)`). -/
def dict_get (d : Timesheet) (k : String) : JValue :=
  match d with
  | [] => JValue.null
  | (k0, v) :: rest => if k0 = k then v else dict_get rest k

/-- The grouped result: an insertion-ordered mapping from employee-key string
to the list of that employee's serialized records (`grouped_logs`). -/
abbrev Grouped := List (String × List Timesheet)

/-- First value stored under key `k` in an association list
(models Python dict indexing / `in` on `grouped_logs`). -/
def alist_find {α : Type} (k : String) : List (String × α) → Option α
  | [] => none
  | (k0, v) :: rest => if k0 = k then some v else alist_find k rest

/-- `grouped_logs[key].append(timesheet)`: append `ts` to the group stored
under `key`, leaving all other groups and the key order unchanged. -/
def group_append (g : Grouped) (key : String) (ts : Timesheet) : Grouped :=
  g.map (fun p => if p.1 = key then (p.1, p.2 ++ [ts]) else p)

/-- One iteration of the grouping loop of src/main.py (lines 62-68):
`emp_id = timesheet.get("employee_id") or timesheet.get("employee")`,
skip when `emp_id is None`, else file the record under `str(emp_id)`,
creating the group at the end of the mapping if the key is new. -/
def group_step (g : Grouped) (ts : Timesheet) : Grouped :=
  let emp_id := py_or (dict_get ts "employee_id") (dict_get ts "employee")
  if is_none emp_id then g
  else
    let key := py_str emp_id
    if (alist_find key g).isSome then group_append g key ts
    else g ++ [(key, [ts])]

/-- The whole grouping loop, starting from the empty dict `grouped_logs = {}`. -/
def group_timelogs (data : List Timesheet) : Grouped :=
  data.foldl group_step []

/-- The key under which the grouping loop files a record, if any:
`none` exactly when the loop skips the record. -/
def selected_key (ts : Timesheet) : Option String :=
  let emp_id := py_or (dict_get ts "employee_id") (dict_get ts "employee")
  if is_none emp_id then none else some (py_str emp_id)

/-- An opaque Python exception value (identified by its message). -/
inductive PyError where
  | err : String → PyError

/-- The dashboard update payload
`{"timelogs": grouped_logs, "message": msg_str}`. -/
structure DashPayload where
  timelogs : Grouped
  message : String

/-- One observed call to `send_dashboard_update(target, msg_type, payload)`. -/
structure SendCall where
  target : String
  event_type : String
  payload : DashPayload

/-- The external collaborators of the handler, each of which may raise. -/
structure Env where
  /-- `base64.b64decode(event["data"]).decode("utf-8")` -/
  b64_utf8_decode : String → Except PyError String
  /-- `json.loads` -/
  json_loads : String → Except PyError JValue
  /-- `TimeLog.objects.all()` followed by `TimeLogSerializer(logs, many=True).data` -/
  fetch_serialized : Except PyError (List Timesheet)
  /-- `send_dashboard_update(target, msg_type, payload)` -/
  send_dashboard_update : String → String → DashPayload → Except PyError Unit

/-- The double-decode-tolerant parse of src/main.py lines 49-51:
parse once, and if the result is a JSON string, parse that string again. -/
def parse_payload (loads : String → Except PyError JValue) (raw : String) :
    Except PyError JValue :=
  match loads raw with
  | Except.error e => Except.error e
  | Except.ok first_pass =>
    match first_pass with
    | JValue.str s => loads s
    | v => Except.ok v

/-- The summary string of src/main.py line 57. -/
def msg_str (n : Nat) : String :=
  "Bulk Timesheet Lookup: found " ++ toString n ++ " timelog records."

/-- The handler `employee_timelog_list(event, context)` of src/main.py.
Returns the outcome (`Except.error e` models the logged-and-re-raised
exception `e`) together with the `send_dashboard_update` calls performed. -/
def employee_timelog_list (env : Env) (event_data : String) :
    Except PyError Unit × List SendCall :=
  match env.b64_utf8_decode event_data with
  | Except.error e => (Except.error e, [])
  | Except.ok raw_data =>
    match parse_payload env.json_loads raw_data with
    | Except.error e => (Except.error e, [])
    | Except.ok _data =>
      match env.fetch_serialized with
      | Except.error e => (Except.error e, [])
      | Except.ok ts_data =>
        let m := msg_str ts_data.length
        let grouped := group_timelogs ts_data
        let call : SendCall := ⟨"all", "bulk_timelog_lookup", ⟨grouped, m⟩⟩
        (env.send_dashboard_update call.target call.event_type call.payload, [call])

/-- Whether a JSON value is a string (`isinstance(first_pass, str)`). -/
def is_str : JValue → Bool
  | JValue.str _ => true
  | _ => false

/-- One step of the spec-side key-order computation: append a record's
selected key if it has not been seen before. -/
def kstep (acc : List String) (ts : Timesheet) : List String :=
  match selected_key ts with
  | none => acc
  | some k => if k ∈ acc then acc else acc ++ [k]

/-- Spec-side description of the grouped mapping's key sequence:
the employee keys in order of first appearance. -/
def spec_first_keys (data : List Timesheet) : List String :=
  data.foldl kstep []

/-- Spec-side description of one group: the records whose selected key is
`k`, in their original order, neither reordered nor deduplicated. -/
def spec_group (data : List Timesheet) (k : String) : List Timesheet :=
  data.filter (fun ts => decide (selected_key ts = some k))

/-- A record whose `employee_id` is present but falsy (the integer 0)
while `employee` holds 7. -/
def rec_falsy_id : Timesheet := [("employee_id", JValue.int 0), ("employee", JValue.int 7)]

/-- A record whose `employee_id` is present but falsy, with no `employee`. -/
def rec_falsy_only : Timesheet := [("employee_id", JValue.int 0)]

/-- A record whose only identifier is the empty-string `employee`. -/
def rec_empty_emp : Timesheet := [("employee", JValue.str "")]

/-- Example records for the order-preservation example of the spec. -/
def rec_emp2_x : Timesheet := [("employee_id", JValue.int 2), ("note", JValue.str "x")]

def rec_emp1_y : Timesheet := [("employee_id", JValue.int 1), ("note", JValue.str "y")]

def rec_emp2_z : Timesheet := [("employee_id", JValue.int 2), ("note", JValue.str "z")]

/-- A record carrying neither `employee_id` nor `employee`. -/
def rec_no_id : Timesheet := [("note", JValue.str "w")]

/-- A concrete record set: two grouped employees and one record that the
grouping loop drops. -/
def demo_data : List Timesheet := [rec_emp2_x, rec_emp1_y, rec_no_id]

/-- A concrete `json_loads` used to instantiate the abstract environment:
defined on a handful of inputs, failing elsewhere. -/
def demo_loads : String → Except PyError JValue := fun s =>
  if s = "msg1" then Except.ok (JValue.obj [("kind", JValue.str "refresh")])
  else if s = "msg2" then Except.ok (JValue.obj [("kind", JValue.str "other")])
  else if s = "wrapped" then Except.ok (JValue.str "inner")
  else if s = "inner" then Except.ok (JValue.arr [JValue.int 1])
  else if s = "triple" then Except.ok (JValue.str "twice")
  else if s = "twice" then Except.ok (JValue.str "deep")
  else Except.error (PyError.err "Expecting value")

/-- A concrete environment in which every collaborator succeeds
(decoding is the identity except on the designated bad payload). -/
def demo_env : Env where
  b64_utf8_decode := fun s =>
    if s = "bad" then Except.error (PyError.err "Invalid base64") else Except.ok s
  json_loads := demo_loads
  fetch_serialized := Except.ok demo_data
  send_dashboard_update := fun _ _ _ => Except.ok ()

/-- `demo_env` with a failing store fetch. -/
def demo_env_fetch_fail : Env :=
  { demo_env with fetch_serialized := Except.error (PyError.err "StoreError") }

/-- `demo_env` with a failing dashboard forward. -/
def demo_env_send_fail : Env :=
  { demo_env with send_dashboard_update := fun _ _ _ => Except.error (PyError.err "Publish failed") }

/-- `demo_env` with an empty record set. -/
def demo_env_empty : Env :=
  { demo_env with fetch_serialized := Except.ok [] }

/-! ## Helper lemmas about association lists and the grouping loop -/

theorem alist_find_isSome {α : Type} (k : String) (g : List (String × α)) :
    (alist_find k g).isSome = true ↔ k ∈ g.map Prod.fst := by
  induction g with
  | nil => simp [alist_find]
  | cons p rest ih =>
    obtain ⟨k0, v⟩ := p
    by_cases h : k0 = k
    · subst h
      simp [alist_find]
    · have h2 : ¬ k = k0 := fun he => h he.symm
      simp [alist_find, h, h2, ih]

theorem alist_find_cons {α : Type} (k k0 : String) (v : α) (rest : List (String × α)) :
    alist_find k ((k0, v) :: rest) = if k0 = k then some v else alist_find k rest := rfl

theorem group_append_cons (k0 : String) (l : List Timesheet) (rest : Grouped)
    (key : String) (ts : Timesheet) :
    group_append ((k0, l) :: rest) key ts =
      (if k0 = key then (k0, l ++ [ts]) else (k0, l)) :: group_append rest key ts := rfl

theorem alist_find_group_append_ne (g : Grouped) (key k : String) (ts : Timesheet)
    (h : k ≠ key) : alist_find k (group_append g key ts) = alist_find k g := by
  induction g with
  | nil => rfl
  | cons p rest ih =>
    obtain ⟨k0, l⟩ := p
    rw [group_append_cons]
    by_cases h0 : k0 = key
    · have hk : ¬ k0 = k := by intro he; exact h (he ▸ h0)
      rw [if_pos h0, alist_find_cons, alist_find_cons, if_neg hk, if_neg hk, ih]
    · rw [if_neg h0, alist_find_cons, alist_find_cons]
      by_cases h1 : k0 = k
      · rw [if_pos h1, if_pos h1]
      · rw [if_neg h1, if_neg h1, ih]

theorem alist_find_group_append_eq (g : Grouped) (key : String) (ts : Timesheet) :
    alist_find key (group_append g key ts) = (alist_find key g).map (fun l => l ++ [ts]) := by
  induction g with
  | nil => rfl
  | cons p rest ih =>
    obtain ⟨k0, l⟩ := p
    rw [group_append_cons]
    by_cases h0 : k0 = key
    · rw [if_pos h0, alist_find_cons, alist_find_cons, if_pos h0, if_pos h0]
      rfl
    · rw [if_neg h0, alist_find_cons, alist_find_cons, if_neg h0, if_neg h0, ih]

theorem alist_find_append_single (g : Grouped) (key k : String) (v : List Timesheet) :
    alist_find k (g ++ [(key, v)]) =
      match alist_find k g with
      | some l => some l
      | none => if key = k then some v else none := by
  induction g with
  | nil => simp [alist_find]
  | cons p rest ih =>
    obtain ⟨k0, l⟩ := p
    by_cases h0 : k0 = k
    · simp [alist_find, h0]
    · simp [alist_find, h0, ih]

theorem group_append_map_fst (g : Grouped) (key : String) (ts : Timesheet) :
    (group_append g key ts).map Prod.fst = g.map Prod.fst := by
  induction g with
  | nil => rfl
  | cons p rest ih =>
    obtain ⟨k0, l⟩ := p
    by_cases h0 : k0 = key <;> simp [group_append, h0] <;>
      simpa [group_append] using ih

theorem group_step_eq_selected (g : Grouped) (ts : Timesheet) :
    group_step g ts =
      match selected_key ts with
      | none => g
      | some key =>
        if (alist_find key g).isSome then group_append g key ts
        else g ++ [(key, [ts])] := by
  unfold group_step selected_key
  cases hin : is_none (py_or (dict_get ts "employee_id") (dict_get ts "employee")) <;> simp [hin]

theorem map_fst_group_step (g : Grouped) (ts : Timesheet) :
    (group_step g ts).map Prod.fst = kstep (g.map Prod.fst) ts := by
  rw [group_step_eq_selected]
  unfold kstep
  cases hsel : selected_key ts with
  | none => rfl
  | some key =>
    by_cases h : (alist_find key g).isSome = true
    · have hk : key ∈ g.map Prod.fst := (alist_find_isSome key g).1 h
      simp [h, hk, group_append_map_fst]
    · have hk : key ∉ g.map Prod.fst := fun hmem => h ((alist_find_isSome key g).2 hmem)
      simp [h, hk]

theorem map_fst_foldl (data : List Timesheet) :
    ∀ g : Grouped, (data.foldl group_step g).map Prod.fst = data.foldl kstep (g.map Prod.fst) := by
  induction data with
  | nil => intro g; rfl
  | cons ts rest ih =>
    intro g
    simp only [List.foldl_cons]
    rw [ih, map_fst_group_step]

theorem spec_group_cons (ts : Timesheet) (rest : List Timesheet) (k : String) :
    spec_group (ts :: rest) k =
      if selected_key ts = some k then ts :: spec_group rest k else spec_group rest k := by
  unfold spec_group
  rw [List.filter_cons]
  by_cases h : selected_key ts = some k <;> simp [h]

theorem find_foldl_getD (data : List Timesheet) :
    ∀ (g : Grouped) (k : String),
      (alist_find k (data.foldl group_step g)).getD [] =
        (alist_find k g).getD [] ++ spec_group data k := by
  induction data with
  | nil => intro g k; simp [spec_group]
  | cons ts rest ih =>
    intro g k
    simp only [List.foldl_cons]
    rw [ih, spec_group_cons, group_step_eq_selected]
    cases hsel : selected_key ts with
    | none => simp
    | some key =>
      by_cases hkey : key = k
      · subst hkey
        simp only [if_pos rfl]
        by_cases h : (alist_find key g).isSome = true
        · rw [if_pos h, alist_find_group_append_eq]
          obtain ⟨l, hl⟩ := Option.isSome_iff_exists.mp h
          rw [hl]
          simp
        · rw [if_neg h, alist_find_append_single]
          have hnone : alist_find key g = none := Option.not_isSome_iff_eq_none.mp (by simpa using h)
          rw [hnone]
          simp
      · have hne : ¬ some key = some k := fun he => hkey (Option.some.inj he)
        rw [if_neg hne]
        have hred :
            (match some key with
              | none => g
              | some key =>
                if (alist_find key g).isSome = true then group_append g key ts
                else g ++ [(key, [ts])]) =
            (if (alist_find key g).isSome = true then group_append g key ts
              else g ++ [(key, [ts])]) := rfl
        rw [hred]
        by_cases h : (alist_find key g).isSome = true
        · rw [if_pos h, alist_find_group_append_ne g key k ts (fun he => hkey he.symm)]
        · rw [if_neg h, alist_find_append_single]
          cases hg : alist_find k g with
          | some l => simp
          | none => simp [hkey]

theorem dict_get_eq_find (d : Timesheet) (k : String) :
    dict_get d k = (alist_find k d).getD JValue.null := by
  induction d with
  | nil => rfl
  | cons p rest ih =>
    obtain ⟨k0, v⟩ := p
    by_cases h : k0 = k <;> simp [dict_get, alist_find, h, ih]

theorem is_none_of_truthy {v : JValue} (h : truthy v = true) : is_none v = false := by
  cases v <;> simp_all [truthy, is_none]

theorem selected_key_of_truthy (ts : Timesheet)
    (h : truthy (dict_get ts "employee_id") = true) :
    selected_key ts = some (py_str (dict_get ts "employee_id")) := by
  unfold selected_key
  simp [py_or, h, is_none_of_truthy h]

theorem selected_key_of_fallback (ts : Timesheet)
    (h : truthy (dict_get ts "employee_id") = false)
    (hnn : is_none (dict_get ts "employee") = false) :
    selected_key ts = some (py_str (dict_get ts "employee")) := by
  unfold selected_key
  simp [py_or, h, hnn]

theorem selected_key_of_missing (ts : Timesheet)
    (h1 : alist_find "employee_id" ts = none) (h2 : alist_find "employee" ts = none) :
    selected_key ts = none := by
  have g1 : dict_get ts "employee_id" = JValue.null := by
    rw [dict_get_eq_find, h1]; rfl
  have g2 : dict_get ts "employee" = JValue.null := by
    rw [dict_get_eq_find, h2]; rfl
  simp [selected_key, py_or, g1, g2, truthy, is_none]

theorem group_step_none (g : Grouped) (ts : Timesheet) (h : selected_key ts = none) :
    group_step g ts = g := by
  rw [group_step_eq_selected, h]

theorem group_step_some (g : Grouped) (ts : Timesheet) (key : String)
    (h : selected_key ts = some key) :
    group_step g ts =
      if (alist_find key g).isSome = true then group_append g key ts
      else g ++ [(key, [ts])] := by
  rw [group_step_eq_selected, h]

theorem kstep_none (acc : List String) (ts : Timesheet) (h : selected_key ts = none) :
    kstep acc ts = acc := by
  unfold kstep
  rw [h]

theorem kstep_some (acc : List String) (ts : Timesheet) (k1 : String)
    (h : selected_key ts = some k1) :
    kstep acc ts = if k1 ∈ acc then acc else acc ++ [k1] := by
  unfold kstep
  rw [h]

theorem not_mem_group_step (g : Grouped) (ts ts0 : Timesheet)
    (h0 : selected_key ts0 = none)
    (hg : ∀ p ∈ g, ts0 ∉ p.2) :
    ∀ p ∈ group_step g ts, ts0 ∉ p.2 := by
  cases hsel : selected_key ts with
  | none => rw [group_step_none g ts hsel]; exact hg
  | some key =>
    rw [group_step_some g ts key hsel]
    have hne : ts0 ≠ ts := by
      intro he
      rw [he, hsel] at h0
      cases h0
    by_cases h : (alist_find key g).isSome = true
    · rw [if_pos h]
      intro p hp
      obtain ⟨q, hq, hpq⟩ := List.mem_map.mp hp
      by_cases hq1 : q.1 = key
      · rw [if_pos hq1] at hpq
        rw [← hpq]
        intro hmem
        rcases List.mem_append.mp hmem with hm | hm
        · exact hg q hq hm
        · exact hne (List.mem_singleton.mp hm)
      · rw [if_neg hq1] at hpq
        rw [← hpq]
        exact hg q hq
    · rw [if_neg h]
      intro p hp
      rcases List.mem_append.mp hp with hpg | hps
      · exact hg p hpg
      · have : p = (key, [ts]) := List.mem_singleton.mp hps
        rw [this]
        intro hmem
        exact hne (List.mem_singleton.mp hmem)

theorem not_mem_groups_foldl (data : List Timesheet) (ts0 : Timesheet)
    (h0 : selected_key ts0 = none) :
    ∀ g : Grouped, (∀ p ∈ g, ts0 ∉ p.2) →
      ∀ p ∈ data.foldl group_step g, ts0 ∉ p.2 := by
  induction data with
  | nil => intro g hg; simpa using hg
  | cons ts rest ih =>
    intro g hg
    simp only [List.foldl_cons]
    exact ih (group_step g ts) (not_mem_group_step g ts ts0 h0 hg)

theorem mem_foldl_kstep (data : List Timesheet) :
    ∀ (acc : List String) (k : String), k ∈ data.foldl kstep acc →
      k ∈ acc ∨ ∃ ts ∈ data, selected_key ts = some k := by
  induction data with
  | nil => intro acc k h; exact Or.inl (by simpa using h)
  | cons ts rest ih =>
    intro acc k h
    simp only [List.foldl_cons] at h
    rcases ih (kstep acc ts) k h with hacc | hex
    · cases hsel2 : selected_key ts with
      | none =>
        rw [kstep_none acc ts hsel2] at hacc
        exact Or.inl hacc
      | some k1 =>
        rw [kstep_some acc ts k1 hsel2] at hacc
        by_cases hk1 : k1 ∈ acc
        · rw [if_pos hk1] at hacc
          exact Or.inl hacc
        · rw [if_neg hk1] at hacc
          rcases List.mem_append.mp hacc with h1 | h1
          · exact Or.inl h1
          · have : k = k1 := List.mem_singleton.mp h1
            subst this
            exact Or.inr ⟨ts, List.mem_cons_self ts rest, hsel2⟩
    · obtain ⟨ts1, hmem, hsel⟩ := hex
      exact Or.inr ⟨ts1, List.mem_cons_of_mem ts hmem, hsel⟩

/-! ## Claim theorems -/

/-- C1 (counterexample): the fallback to `employee` is not governed by the
absence of `employee_id` but by Python truthiness.  `rec_falsy_id` has
`employee_id` present (the integer 0, whose string form is "0") yet is
grouped under "7", the string form of its `employee` field; and
`rec_falsy_only` has `employee_id` present yet is skipped entirely. -/
theorem c1_counterexample :
    (alist_find "employee_id" rec_falsy_id).isSome = true ∧
    py_str (dict_get rec_falsy_id "employee_id") = "0" ∧
    (group_timelogs [rec_falsy_id]).map Prod.fst = ["7"] ∧
    (alist_find "employee_id" rec_falsy_only).isSome = true ∧
    group_timelogs [rec_falsy_only] = [] :=
  ⟨rfl, rfl, rfl, rfl, rfl⟩

/-- C1 (amended): the identifying value is `employee_id or employee` under
Python truthiness.  A record whose `employee_id` is truthy is grouped under
the string form of that value regardless of `employee`; when `employee_id`
is falsy (absent, `None`, `0`, `""`, `[]`, or an empty object) the loop
falls back to `employee`, and files the record under its string form
whenever that fallback value is not `None`. -/
theorem c1_amended_grouping (data : List Timesheet) (ts : Timesheet) (hmem : ts ∈ data) :
    (truthy (dict_get ts "employee_id") = true →
      ts ∈ (alist_find (py_str (dict_get ts "employee_id")) (group_timelogs data)).getD []) ∧
    (truthy (dict_get ts "employee_id") = false →
      is_none (dict_get ts "employee") = false →
      ts ∈ (alist_find (py_str (dict_get ts "employee")) (group_timelogs data)).getD []) := by
  constructor
  · intro ht
    have hsel := selected_key_of_truthy ts ht
    unfold group_timelogs
    rw [find_foldl_getD data []]
    simp [spec_group, List.mem_filter, hmem, hsel]
  · intro hf hnn
    have hsel := selected_key_of_fallback ts hf hnn
    unfold group_timelogs
    rw [find_foldl_getD data []]
    simp [spec_group, List.mem_filter, hmem, hsel]

/-- Witness for `c1_amended_grouping` at two concrete records. -/
theorem c1_amended_grouping_witness :
    rec_emp2_x ∈
      (alist_find (py_str (dict_get rec_emp2_x "employee_id"))
        (group_timelogs [rec_emp2_x])).getD [] ∧
    rec_falsy_id ∈
      (alist_find (py_str (dict_get rec_falsy_id "employee"))
        (group_timelogs [rec_falsy_id])).getD [] :=
  ⟨(c1_amended_grouping [rec_emp2_x] rec_emp2_x (by simp)).1 rfl,
   (c1_amended_grouping [rec_falsy_id] rec_falsy_id (by simp)).2 rfl rfl⟩

/-- C2 (counterexample): a record whose only identifier is the empty-string
`employee` value produces the empty string as a group key, so not every key
of the grouped result is non-empty. -/
theorem c2_counterexample :
    (group_timelogs [rec_empty_emp]).map Prod.fst = [""] ∧
    ("" : String).length = 0 :=
  ⟨rfl, rfl⟩

/-- C2 (amended): every key of the grouped result is the string form of
some record's selected identifier (so keys are always string-typed, and are
empty only when that identifier is the empty string), and the integer 5 and
the string "5" still normalise to the same key "5". -/
theorem c2_amended_string_keys :
    (∀ (data : List Timesheet) (k : String), k ∈ (group_timelogs data).map Prod.fst →
      ∃ ts ∈ data, selected_key ts = some k) ∧
    (group_timelogs
      [[("employee_id", JValue.int 5)], [("employee_id", JValue.str "5")]]).map Prod.fst
      = ["5"] := by
  constructor
  · intro data k hk
    unfold group_timelogs at hk
    rw [map_fst_foldl data []] at hk
    rcases mem_foldl_kstep data [] k hk with h | h
    · simp at h
    · exact h
  · rfl

/-- Witness for `c2_amended_string_keys` at a concrete input. -/
theorem c2_amended_string_keys_witness :
    ∃ ts ∈ [[("employee", JValue.str "5")]], selected_key ts = some "5" :=
  c2_amended_string_keys.1 [[("employee", JValue.str "5")]] "5" (by decide)

/-- C3: a record carrying neither `employee_id` nor `employee` appears in no
group of the grouped result, yet the summary string forwarded to the
dashboard counts the full serialized sequence, dropped records included. -/
theorem c3_dropped_still_counted (env : Env) (d raw : String) (v : JValue)
    (data : List Timesheet) (ts0 : Timesheet)
    (hdec : env.b64_utf8_decode d = Except.ok raw)
    (hparse : parse_payload env.json_loads raw = Except.ok v)
    (hfetch : env.fetch_serialized = Except.ok data)
    (h1 : alist_find "employee_id" ts0 = none)
    (h2 : alist_find "employee" ts0 = none) :
    (employee_timelog_list env d).2 =
      [⟨"all", "bulk_timelog_lookup", ⟨group_timelogs data, msg_str data.length⟩⟩] ∧
    ∀ p ∈ group_timelogs data, ts0 ∉ p.2 := by
  constructor
  · simp [employee_timelog_list, hdec, hparse, hfetch]
  · exact not_mem_groups_foldl data ts0 (selected_key_of_missing ts0 h1 h2) []
      (by intro q hq; cases hq)

/-- Witness for `c3_dropped_still_counted`: three fetched records, one of
which carries no identifier; the summary reports 3 while the groups cover
only the other two records. -/
theorem c3_dropped_still_counted_witness :
    (employee_timelog_list demo_env "msg1").2 =
      [⟨"all", "bulk_timelog_lookup",
        ⟨group_timelogs demo_data, msg_str demo_data.length⟩⟩] ∧
    (∀ p ∈ group_timelogs demo_data, rec_no_id ∉ p.2) ∧
    msg_str demo_data.length = "Bulk Timesheet Lookup: found 3 timelog records." ∧
    group_timelogs demo_data = [("2", [rec_emp2_x]), ("1", [rec_emp1_y])] := by
  have h := c3_dropped_still_counted demo_env "msg1" "msg1"
    (JValue.obj [("kind", JValue.str "refresh")]) demo_data rec_no_id rfl rfl rfl rfl rfl
  exact ⟨h.1, h.2, rfl, rfl⟩

/-- C4: the grouped result's key order is the first-appearance order of the
selected employee keys, each group is exactly the subsequence of records
selecting that key (original order, no reordering, no deduplication), and
the spec's concrete example evaluates as stated. -/
theorem c4_order_preservation (data : List Timesheet) :
    (group_timelogs data).map Prod.fst = spec_first_keys data ∧
    (∀ k : String, (alist_find k (group_timelogs data)).getD [] = spec_group data k) ∧
    group_timelogs [rec_emp2_x, rec_emp1_y, rec_emp2_z] =
      [("2", [rec_emp2_x, rec_emp2_z]), ("1", [rec_emp1_y])] := by
  refine ⟨?_, ?_, rfl⟩
  · unfold group_timelogs spec_first_keys
    exact map_fst_foldl data []
  · intro k
    unfold group_timelogs
    rw [find_foldl_getD data []]
    rfl

/-- C5: when the decoded text parses to a non-string JSON value, the
decode-then-parse step yields that value unchanged (for any behaviour of
the parser on other inputs, i.e. exactly one parse pass); when it parses to
a JSON string literal, exactly one additional parse pass is applied and the
final value is the inner document. -/
theorem c5_single_and_double_encoding (loads : String → Except PyError JValue)
    (raw s : String) (v w : JValue) :
    (loads raw = Except.ok v → is_str v = false →
      parse_payload loads raw = Except.ok v) ∧
    (loads raw = Except.ok (JValue.str s) → loads s = Except.ok w →
      parse_payload loads raw = Except.ok w) := by
  constructor
  · intro h1 h2
    unfold parse_payload
    rw [h1]
    cases v <;> simp_all [is_str]
  · intro h1 h2
    unfold parse_payload
    rw [h1]
    exact h2

/-- Witness for `c5_single_and_double_encoding`: a single-encoded object
payload passes through unchanged; a string-wrapped payload is unwrapped
exactly once. -/
theorem c5_single_and_double_encoding_witness :
    parse_payload demo_loads "msg1" =
      Except.ok (JValue.obj [("kind", JValue.str "refresh")]) ∧
    parse_payload demo_loads "wrapped" = Except.ok (JValue.arr [JValue.int 1]) :=
  ⟨(c5_single_and_double_encoding demo_loads "msg1" ""
      (JValue.obj [("kind", JValue.str "refresh")]) JValue.null).1 rfl rfl,
   (c5_single_and_double_encoding demo_loads "wrapped" "inner"
      JValue.null (JValue.arr [JValue.int 1])).2 rfl rfl⟩

/-- C6: every failure of any pipeline step (decode, either parse pass,
fetch/serialize, forward) propagates out of the handler unchanged; in
particular a failing forward makes the whole invocation fail even though
fetch and grouping already succeeded, and no step's failure is swallowed
locally. -/
theorem c6_outermost_propagation (env : Env) (d : String) (e : PyError) :
    (env.b64_utf8_decode d = Except.error e →
      employee_timelog_list env d = (Except.error e, [])) ∧
    (∀ raw, env.b64_utf8_decode d = Except.ok raw →
      parse_payload env.json_loads raw = Except.error e →
      employee_timelog_list env d = (Except.error e, [])) ∧
    (∀ raw v, env.b64_utf8_decode d = Except.ok raw →
      parse_payload env.json_loads raw = Except.ok v →
      env.fetch_serialized = Except.error e →
      employee_timelog_list env d = (Except.error e, [])) ∧
    (∀ raw v data, env.b64_utf8_decode d = Except.ok raw →
      parse_payload env.json_loads raw = Except.ok v →
      env.fetch_serialized = Except.ok data →
      env.send_dashboard_update "all" "bulk_timelog_lookup"
        ⟨group_timelogs data, msg_str data.length⟩ = Except.error e →
      employee_timelog_list env d =
        (Except.error e,
         [⟨"all", "bulk_timelog_lookup", ⟨group_timelogs data, msg_str data.length⟩⟩])) := by
  refine ⟨?_, ?_, ?_, ?_⟩
  · intro h
    simp [employee_timelog_list, h]
  · intro raw h1 h2
    simp [employee_timelog_list, h1, h2]
  · intro raw v h1 h2 h3
    simp [employee_timelog_list, h1, h2, h3]
  · intro raw v data h1 h2 h3 h4
    simp [employee_timelog_list, h1, h2, h3, h4]

/-- Witness for `c6_outermost_propagation`: a bad base64 payload, a
malformed JSON payload, a store failure and a forward failure each make the
concrete handler fail with that same error. -/
theorem c6_outermost_propagation_witness :
    employee_timelog_list demo_env "bad" = (Except.error (PyError.err "Invalid base64"), []) ∧
    employee_timelog_list demo_env "oops" = (Except.error (PyError.err "Expecting value"), []) ∧
    employee_timelog_list demo_env_fetch_fail "msg1" =
      (Except.error (PyError.err "StoreError"), []) ∧
    employee_timelog_list demo_env_send_fail "msg1" =
      (Except.error (PyError.err "Publish failed"),
       [⟨"all", "bulk_timelog_lookup",
         ⟨group_timelogs demo_data, msg_str demo_data.length⟩⟩]) :=
  ⟨(c6_outermost_propagation demo_env "bad" (PyError.err "Invalid base64")).1 rfl,
   (c6_outermost_propagation demo_env "oops" (PyError.err "Expecting value")).2.1
     "oops" rfl rfl,
   (c6_outermost_propagation demo_env_fetch_fail "msg1" (PyError.err "StoreError")).2.2.1
     "msg1" (JValue.obj [("kind", JValue.str "refresh")]) rfl rfl rfl,
   (c6_outermost_propagation demo_env_send_fail "msg1" (PyError.err "Publish failed")).2.2.2
     "msg1" (JValue.obj [("kind", JValue.str "refresh")]) demo_data rfl rfl rfl rfl⟩

/-- C7: for any two inbound messages that both decode and parse
successfully, the handler behaves identically downstream: the fetch is
unconditional and the forwarded payload depends only on the fetched
records, never on the decoded message content. -/
theorem c7_message_noninterference (env : Env) (d1 d2 raw1 raw2 : String) (v1 v2 : JValue)
    (hdec1 : env.b64_utf8_decode d1 = Except.ok raw1)
    (hdec2 : env.b64_utf8_decode d2 = Except.ok raw2)
    (hp1 : parse_payload env.json_loads raw1 = Except.ok v1)
    (hp2 : parse_payload env.json_loads raw2 = Except.ok v2) :
    employee_timelog_list env d1 = employee_timelog_list env d2 := by
  simp [employee_timelog_list, hdec1, hdec2, hp1, hp2]

/-- Witness for `c7_message_noninterference`: two messages with different
parsed contents produce identical handler behaviour. -/
theorem c7_message_noninterference_witness :
    employee_timelog_list demo_env "msg1" = employee_timelog_list demo_env "msg2" :=
  c7_message_noninterference demo_env "msg1" "msg2" "msg1" "msg2"
    (JValue.obj [("kind", JValue.str "refresh")])
    (JValue.obj [("kind", JValue.str "other")]) rfl rfl rfl rfl

/-- C8: with an empty record set the summary string reports
"found 0 timelog records.", the grouped result is the empty mapping, and
the forward call still occurs. -/
theorem c8_empty_records (env : Env) (d raw : String) (v : JValue)
    (hdec : env.b64_utf8_decode d = Except.ok raw)
    (hp : parse_payload env.json_loads raw = Except.ok v)
    (hfetch : env.fetch_serialized = Except.ok []) :
    employee_timelog_list env d =
      (env.send_dashboard_update "all" "bulk_timelog_lookup"
        ⟨[], "Bulk Timesheet Lookup: found 0 timelog records."⟩,
       [⟨"all", "bulk_timelog_lookup",
         ⟨[], "Bulk Timesheet Lookup: found 0 timelog records."⟩⟩]) := by
  simp only [employee_timelog_list, hdec, hp, hfetch]
  rfl

/-- Witness for `c8_empty_records` with a concrete empty-store environment:
the forward call occurs and the handler succeeds. -/
theorem c8_empty_records_witness :
    employee_timelog_list demo_env_empty "msg1" =
      (Except.ok (),
       [⟨"all", "bulk_timelog_lookup",
         ⟨[], "Bulk Timesheet Lookup: found 0 timelog records."⟩⟩]) :=
  c8_empty_records demo_env_empty "msg1" "msg1"
    (JValue.obj [("kind", JValue.str "refresh")]) rfl rfl rfl

/-- C9: on every successful run exactly one forward call is made, with
target "all", event type "bulk_timelog_lookup", and payload
`{timelogs, message}` where the message counts the full serialized
sequence. -/
theorem c9_single_forward_call (env : Env) (d : String) (data : List Timesheet)
    (hfetch : env.fetch_serialized = Except.ok data)
    (hok : (employee_timelog_list env d).1 = Except.ok ()) :
    (employee_timelog_list env d).2 =
      [⟨"all", "bulk_timelog_lookup", ⟨group_timelogs data, msg_str data.length⟩⟩] := by
  cases hdec : env.b64_utf8_decode d with
  | error e => simp [employee_timelog_list, hdec] at hok
  | ok raw =>
    cases hp : parse_payload env.json_loads raw with
    | error e => simp [employee_timelog_list, hdec, hp] at hok
    | ok v => simp [employee_timelog_list, hdec, hp, hfetch]

/-- Witness for `c9_single_forward_call` on the concrete environment. -/
theorem c9_single_forward_call_witness :
    (employee_timelog_list demo_env "msg1").2 =
      [⟨"all", "bulk_timelog_lookup", ⟨group_timelogs demo_data, msg_str demo_data.length⟩⟩] :=
  c9_single_forward_call demo_env "msg1" demo_data rfl rfl

/-- C10: the handler never checks that two parse passes suffice: for a
triple-or-more-encoded payload the second pass still yields a string, no
error is raised, and the handler proceeds through fetch, group and forward
exactly as for a well-formed payload. -/
theorem c10_triple_encoded_tolerated (env : Env) (d raw s u : String)
    (hdec : env.b64_utf8_decode d = Except.ok raw)
    (h1 : env.json_loads raw = Except.ok (JValue.str s))
    (h2 : env.json_loads s = Except.ok (JValue.str u)) :
    parse_payload env.json_loads raw = Except.ok (JValue.str u) ∧
    is_str (JValue.str u) = true ∧
    ∀ data, env.fetch_serialized = Except.ok data →
      employee_timelog_list env d =
        (env.send_dashboard_update "all" "bulk_timelog_lookup"
           ⟨group_timelogs data, msg_str data.length⟩,
         [⟨"all", "bulk_timelog_lookup", ⟨group_timelogs data, msg_str data.length⟩⟩]) := by
  have hp : parse_payload env.json_loads raw = Except.ok (JValue.str u) := by
    unfold parse_payload
    rw [h1]
    exact h2
  refine ⟨hp, rfl, ?_⟩
  intro data hfetch
  simp [employee_timelog_list, hdec, hp, hfetch]

/-- Witness for `c10_triple_encoded_tolerated`: a triple-encoded payload
still ends in a string value and the handler completes normally. -/
theorem c10_triple_encoded_tolerated_witness :
    parse_payload demo_env.json_loads "triple" = Except.ok (JValue.str "deep") ∧
    employee_timelog_list demo_env "triple" =
      (Except.ok (),
       [⟨"all", "bulk_timelog_lookup",
         ⟨group_timelogs demo_data, msg_str demo_data.length⟩⟩]) := by
  have h := c10_triple_encoded_tolerated demo_env "triple" "triple" "twice" "deep" rfl rfl rfl
  exact ⟨h.1, h.2.2 demo_data rfl⟩
